import Mathlib

/-!
Verification of the joystick_drawer kernel module (src/joystick_drawer.c).

The module translates events from a physical joystick into events on two
synthetic output devices (a virtual mouse and a virtual keyboard), and
manages the lifecycle of the binding (input_handle) to the joystick.

The shallow embedding below mirrors the C source:
  - joystick_event (lines 47-96): pure translation of one input event into
    a list of output actions (reports and syncs on the two virtual devices);
  - joystick_connect (lines 98-137): the acceptance / bind sequence, with
    injected host failures (kzalloc, input_register_handle,
    input_open_device) and an explicit step trace mirroring control flow;
  - joystick_disconnect (lines 139-145);
  - create_virtual_devices (lines 148-222): startup creation of the two
    virtual output devices, with injected host failures.

Machine integers of the C source (int values, error codes) are modelled as
Int; C truncating division on int is Int.tdiv. Event types and codes
(unsigned int) are modelled as Nat, with the numeric values of the Linux
input-event codes used by the source.
-/

namespace JoystickDrawer

/-! Linux input event type and code constants, as in linux/input-event-codes.h. -/

def EV_KEY : Nat := 1
def EV_REL : Nat := 2
def EV_ABS : Nat := 3

def ABS_X : Nat := 0
def ABS_Y : Nat := 1

def REL_X : Nat := 0
def REL_Y : Nat := 1

def BTN_LEFT : Nat := 272
def BTN_RIGHT : Nat := 273
def BTN_MIDDLE : Nat := 274

def BTN_A : Nat := 304
def BTN_B : Nat := 305
def BTN_X : Nat := 307
def BTN_Y : Nat := 308
def BTN_TL : Nat := 310

def KEY_E : Nat := 18
def KEY_R : Nat := 19
def KEY_LEFTBRACE : Nat := 26
def KEY_RIGHTBRACE : Nat := 27
def KEY_G : Nat := 34
def KEY_C : Nat := 46
def KEY_B : Nat := 48

/-! Error codes (linux/errno.h); the C source returns their negations. -/

def ENOMEM : Int := 12
def ENODEV : Int := 19

/-! The two synthetic output devices. -/

inductive Device where
  | mouse
  | keyboard
  deriving DecidableEq, Repr

/-- One output effect performed by the translator on a virtual device:
input_report_rel, input_report_key, or input_sync. -/
inductive OutAction where
  | reportRel (dev : Device) (axis : Nat) (value : Int)
  | reportKey (dev : Device) (key : Nat) (value : Int)
  | sync (dev : Device)
  deriving DecidableEq, Repr

/-- The device an output action is performed on. -/
def OutAction.device : OutAction → Device
  | .reportRel d _ _ => d
  | .reportKey d _ _ => d
  | .sync d => d

/-- Whether an output action is a report (as opposed to a sync). -/
def OutAction.isReport : OutAction → Bool
  | .reportRel _ _ _ => true
  | .reportKey _ _ _ => true
  | .sync _ => false

/-- Embedding of joystick_event (src/joystick_drawer.c lines 47-96): the
translation of one delivered event (type, code, value) into the list of
output actions performed, in order. sensitivity is the module parameter
(line 19); center is the fixed constant 128 (line 52); the scaling on
lines 57 and 62 is C truncating integer division, Int.tdiv. -/
def joystick_event (sensitivity : Int) (type code : Nat) (value : Int) :
    List OutAction :=
  let center : Int := 128
  if type = EV_ABS then
    if code = ABS_X then
      let scaled_value := Int.tdiv ((value - center) * sensitivity) 32
      [OutAction.reportRel Device.mouse REL_X scaled_value,
       OutAction.sync Device.mouse]
    else if code = ABS_Y then
      let scaled_value := Int.tdiv ((value - center) * sensitivity) 32
      [OutAction.reportRel Device.mouse REL_Y scaled_value,
       OutAction.sync Device.mouse]
    else []
  else if type = EV_KEY then
    if code = BTN_TL then
      [OutAction.reportKey Device.mouse BTN_LEFT value,
       OutAction.sync Device.mouse]
    else if code = BTN_B then
      [OutAction.reportKey Device.keyboard KEY_B value,
       OutAction.sync Device.keyboard]
    else if code = BTN_X then
      [OutAction.reportKey Device.keyboard KEY_E value,
       OutAction.sync Device.keyboard]
    else if code = BTN_Y then
      [OutAction.reportKey Device.keyboard KEY_RIGHTBRACE value,
       OutAction.sync Device.keyboard]
    else if code = BTN_A then
      [OutAction.reportKey Device.keyboard KEY_LEFTBRACE value,
       OutAction.sync Device.keyboard]
    else []
  else []

/-- C1: every absolute-axis event on ABS_X or ABS_Y with raw value v emits a
relative motion of (v - 128) * sensitivity truncating-divided by 32 on the
corresponding axis of the pointer device, followed by a sync of the pointer
device; with sensitivity 5, v = 128 gives 0, v = 160 gives 5, v = 96 gives
-5, and v = 143 gives 2. -/
theorem C1_axis_translation :
    (∀ (s v : Int),
      joystick_event s EV_ABS ABS_X v =
        [OutAction.reportRel Device.mouse REL_X (Int.tdiv ((v - 128) * s) 32),
         OutAction.sync Device.mouse]) ∧
    (∀ (s v : Int),
      joystick_event s EV_ABS ABS_Y v =
        [OutAction.reportRel Device.mouse REL_Y (Int.tdiv ((v - 128) * s) 32),
         OutAction.sync Device.mouse]) ∧
    joystick_event 5 EV_ABS ABS_X 128 =
      [OutAction.reportRel Device.mouse REL_X 0, OutAction.sync Device.mouse] ∧
    joystick_event 5 EV_ABS ABS_X 160 =
      [OutAction.reportRel Device.mouse REL_X 5, OutAction.sync Device.mouse] ∧
    joystick_event 5 EV_ABS ABS_X 96 =
      [OutAction.reportRel Device.mouse REL_X (-5), OutAction.sync Device.mouse] ∧
    joystick_event 5 EV_ABS ABS_X 143 =
      [OutAction.reportRel Device.mouse REL_X 2, OutAction.sync Device.mouse] ∧
    joystick_event 5 EV_ABS ABS_Y 160 =
      [OutAction.reportRel Device.mouse REL_Y 5, OutAction.sync Device.mouse] := by
  refine ⟨fun s v => ?_, fun s v => ?_, by decide, by decide, by decide, by decide, by decide⟩
  · simp [joystick_event, EV_ABS, ABS_X]
  · simp [joystick_event, EV_ABS, ABS_X, ABS_Y]

/-- C2: button (EV_KEY) events map exactly BTN_TL to the mouse left button,
BTN_B / BTN_X / BTN_Y / BTN_A to keyboard keys B / E / rightbrace /
leftbrace, each report followed by a sync of the same device; every other
button code, and every event type other than EV_ABS and EV_KEY, produces no
output at all. -/
theorem C2_button_translation :
    (∀ (s v : Int),
      joystick_event s EV_KEY BTN_TL v =
        [OutAction.reportKey Device.mouse BTN_LEFT v, OutAction.sync Device.mouse]) ∧
    (∀ (s v : Int),
      joystick_event s EV_KEY BTN_B v =
        [OutAction.reportKey Device.keyboard KEY_B v, OutAction.sync Device.keyboard]) ∧
    (∀ (s v : Int),
      joystick_event s EV_KEY BTN_X v =
        [OutAction.reportKey Device.keyboard KEY_E v, OutAction.sync Device.keyboard]) ∧
    (∀ (s v : Int),
      joystick_event s EV_KEY BTN_Y v =
        [OutAction.reportKey Device.keyboard KEY_RIGHTBRACE v, OutAction.sync Device.keyboard]) ∧
    (∀ (s v : Int),
      joystick_event s EV_KEY BTN_A v =
        [OutAction.reportKey Device.keyboard KEY_LEFTBRACE v, OutAction.sync Device.keyboard]) ∧
    (∀ (s : Int) (code : Nat) (v : Int),
      code ≠ BTN_TL → code ≠ BTN_B → code ≠ BTN_X → code ≠ BTN_Y → code ≠ BTN_A →
      joystick_event s EV_KEY code v = []) ∧
    (∀ (s : Int) (type code : Nat) (v : Int),
      type ≠ EV_ABS → type ≠ EV_KEY →
      joystick_event s type code v = []) := by
  refine ⟨fun s v => ?_, fun s v => ?_, fun s v => ?_, fun s v => ?_, fun s v => ?_,
    fun s code v h1 h2 h3 h4 h5 => ?_, fun s type code v h1 h2 => ?_⟩
  · simp [joystick_event, EV_ABS, EV_KEY, BTN_TL]
  · simp [joystick_event, EV_ABS, EV_KEY, BTN_TL, BTN_B]
  · simp [joystick_event, EV_ABS, EV_KEY, BTN_TL, BTN_B, BTN_X]
  · simp [joystick_event, EV_ABS, EV_KEY, BTN_TL, BTN_B, BTN_X, BTN_Y]
  · simp [joystick_event, EV_ABS, EV_KEY, BTN_TL, BTN_B, BTN_X, BTN_Y, BTN_A]
  · simp only [BTN_TL, BTN_B, BTN_X, BTN_Y, BTN_A] at h1 h2 h3 h4 h5
    simp [joystick_event, EV_ABS, EV_KEY, BTN_TL, BTN_B, BTN_X, BTN_Y, BTN_A,
      h1, h2, h3, h4, h5]
  · simp [joystick_event, h1, h2]

/-- C2 witness: an unmapped button code (BTN_TR = 311) and a non-ABS,
non-KEY event type (EV_REL) both produce no output. -/
theorem C2_button_translation_witness :
    joystick_event 5 EV_KEY 311 1 = [] ∧ joystick_event 5 EV_REL 0 1 = [] :=
  ⟨C2_button_translation.2.2.2.2.2.1 5 311 1
      (by decide) (by decide) (by decide) (by decide) (by decide),
   C2_button_translation.2.2.2.2.2.2 5 EV_REL 0 1 (by decide) (by decide)⟩

/-- C9: sensitivity is not clamped: with sensitivity 0 every axis event
emits motion 0, and with sensitivity -s the emitted motion is the exact
negation of the motion emitted with sensitivity s, for every raw value. -/
theorem C9_sensitivity_unclamped :
    (∀ v : Int, joystick_event 0 EV_ABS ABS_X v =
      [OutAction.reportRel Device.mouse REL_X 0, OutAction.sync Device.mouse]) ∧
    (∀ v : Int, joystick_event 0 EV_ABS ABS_Y v =
      [OutAction.reportRel Device.mouse REL_Y 0, OutAction.sync Device.mouse]) ∧
    (∀ (s v : Int), ∃ m : Int,
      joystick_event s EV_ABS ABS_X v =
        [OutAction.reportRel Device.mouse REL_X m, OutAction.sync Device.mouse] ∧
      joystick_event (-s) EV_ABS ABS_X v =
        [OutAction.reportRel Device.mouse REL_X (-m), OutAction.sync Device.mouse]) ∧
    (∀ (s v : Int), ∃ m : Int,
      joystick_event s EV_ABS ABS_Y v =
        [OutAction.reportRel Device.mouse REL_Y m, OutAction.sync Device.mouse] ∧
      joystick_event (-s) EV_ABS ABS_Y v =
        [OutAction.reportRel Device.mouse REL_Y (-m), OutAction.sync Device.mouse]) := by
  refine ⟨fun v => ?_, fun v => ?_, fun s v => ?_, fun s v => ?_⟩
  · simp [joystick_event, EV_ABS, ABS_X]
  · simp [joystick_event, EV_ABS, ABS_X, ABS_Y]
  · refine ⟨Int.tdiv ((v - 128) * s) 32, ?_, ?_⟩
    · simp [joystick_event, EV_ABS, ABS_X]
    · simp [joystick_event, EV_ABS, ABS_X, mul_neg, Int.neg_tdiv]
  · refine ⟨Int.tdiv ((v - 128) * s) 32, ?_, ?_⟩
    · simp [joystick_event, EV_ABS, ABS_X, ABS_Y]
    · simp [joystick_event, EV_ABS, ABS_X, ABS_Y, mul_neg, Int.neg_tdiv]

/-- C10: each input event writes to at most one output device: the action
list is either empty or exactly one report followed by one sync of the same
device (so the other device is never touched by the same event). -/
theorem C10_single_device_frame (s : Int) (type code : Nat) (v : Int) :
    joystick_event s type code v = [] ∨
    ∃ (d : Device) (r : OutAction),
      joystick_event s type code v = [r, OutAction.sync d] ∧
      r.device = d ∧ r.isReport = true := by
  simp only [joystick_event]
  split_ifs <;>
    first
      | exact Or.inl rfl
      | exact Or.inr ⟨_, _, rfl, rfl, rfl⟩

/-! Embedding of the matcher / lifecycle manager (joystick_connect,
joystick_disconnect). Handles (struct input_handle records) are identified
by allocation order: the state holds a fresh counter nextHandle, the lists
of handle ids currently registered with the input core and currently
opened, the ids that have been kfreed, and the module global
joystick_handle (tracked). -/

structure InputId where
  product : Int

structure InputDev where
  id : InputId
  absbit : Nat → Bool
  name : String

/-- test_bit on a capability bitmap. -/
def test_bit (b : Nat) (bits : Nat → Bool) : Bool := bits b

/-- Outcomes of the host calls made during the bind sequence: kzalloc,
input_register_handle and input_open_device (0 means success, a nonzero
value is the error code the call returns). -/
structure HostEnv where
  allocOk : Bool
  registerHandleError : Int
  openDeviceError : Int

/-- The mutable state the bind sequence acts on: handle allocation counter,
handles registered with the input core, handles opened for event delivery,
handles freed, and the module global joystick_handle. -/
structure HostState where
  nextHandle : Nat
  registered : List Nat
  opened : List Nat
  freed : List Nat
  tracked : Option Nat
  deriving DecidableEq, Repr

/-- Steps performed by joystick_connect, in source order: the id-filter test
on line 105, the capability test on line 109, kzalloc, input_register_handle,
input_open_device, input_unregister_handle, kfree, and the success printk. -/
inductive ConnectStep where
  | testIdFilter
  | testCapabilities
  | allocHandle
  | registerHandle
  | openDevice
  | unregisterHandle
  | freeHandle
  | logConnected
  deriving DecidableEq, Repr

/-- Embedding of joystick_connect (src/joystick_drawer.c lines 98-137):
returns the int result, the state after the call, and the trace of steps
performed. joystick_id is the module parameter (line 15, default -1). -/
def joystick_connect (joystick_id : Int) (dev : InputDev) (env : HostEnv)
    (s : HostState) : Int × HostState × List ConnectStep :=
  if joystick_id ≠ -1 ∧ dev.id.product ≠ joystick_id then
    (-ENODEV, s, [ConnectStep.testIdFilter])
  else if !(test_bit ABS_X dev.absbit && test_bit ABS_Y dev.absbit) then
    (-ENODEV, s, [ConnectStep.testIdFilter, ConnectStep.testCapabilities])
  else if !env.allocOk then
    (-ENOMEM, s,
     [ConnectStep.testIdFilter, ConnectStep.testCapabilities, ConnectStep.allocHandle])
  else
    let handle := s.nextHandle
    let s1 : HostState := { s with nextHandle := handle + 1 }
    if env.registerHandleError ≠ 0 then
      (env.registerHandleError,
       { s1 with freed := handle :: s1.freed },
       [ConnectStep.testIdFilter, ConnectStep.testCapabilities, ConnectStep.allocHandle,
        ConnectStep.registerHandle, ConnectStep.freeHandle])
    else
      let s2 : HostState := { s1 with registered := handle :: s1.registered }
      if env.openDeviceError ≠ 0 then
        (env.openDeviceError,
         { s2 with registered := s2.registered.erase handle,
                   freed := handle :: s2.freed },
         [ConnectStep.testIdFilter, ConnectStep.testCapabilities, ConnectStep.allocHandle,
          ConnectStep.registerHandle, ConnectStep.openDevice,
          ConnectStep.unregisterHandle, ConnectStep.freeHandle])
      else
        (0,
         { s2 with opened := handle :: s2.opened, tracked := some handle },
         [ConnectStep.testIdFilter, ConnectStep.testCapabilities, ConnectStep.allocHandle,
          ConnectStep.registerHandle, ConnectStep.openDevice, ConnectStep.logConnected])

/-- Steps performed by joystick_disconnect, in source order (lines 141-144):
printk, input_close_device, input_unregister_handle, kfree. -/
inductive DisconnectStep where
  | logDisconnected
  | closeDevice
  | unregisterHandle
  | freeHandle
  deriving DecidableEq, Repr

/-- Embedding of joystick_disconnect (src/joystick_drawer.c lines 139-145):
logs, closes, unregisters and frees the given handle. The source never
writes the joystick_handle global here, so tracked is left unchanged. -/
def joystick_disconnect (handle : Nat) (s : HostState) :
    HostState × List DisconnectStep :=
  ({ s with opened := s.opened.erase handle,
            registered := s.registered.erase handle,
            freed := handle :: s.freed },
   [DisconnectStep.logDisconnected, DisconnectStep.closeDevice,
    DisconnectStep.unregisterHandle, DisconnectStep.freeHandle])

/-- A joystick-like candidate device: given product id, with both ABS_X and
ABS_Y capability. -/
def mkJoystick (p : Int) : InputDev :=
  { id := { product := p },
    absbit := fun n => n == ABS_X || n == ABS_Y,
    name := "testpad" }

/-- A candidate device with no absolute axes at all. -/
def devNoAxes : InputDev :=
  { id := { product := 3 }, absbit := fun _ => false, name := "plainkbd" }

/-- A host environment in which every host call succeeds. -/
def envOk : HostEnv :=
  { allocOk := true, registerHandleError := 0, openDeviceError := 0 }

/-- The initial state: nothing allocated, registered, opened or tracked. -/
def s0 : HostState :=
  { nextHandle := 0, registered := [], opened := [], freed := [], tracked := none }

/-- Helper: the bind sequence on an accepted device with no host failure
registers, opens and tracks a fresh handle and returns 0. -/
theorem connect_success_eq (jid : Int) (dev : InputDev) (env : HostEnv) (s : HostState)
    (hid : ¬(jid ≠ -1 ∧ dev.id.product ≠ jid))
    (hcap : (test_bit ABS_X dev.absbit && test_bit ABS_Y dev.absbit) = true)
    (halloc : env.allocOk = true)
    (hreg : env.registerHandleError = 0)
    (hopen : env.openDeviceError = 0) :
    joystick_connect jid dev env s =
      (0,
       { s with nextHandle := s.nextHandle + 1,
                registered := s.nextHandle :: s.registered,
                opened := s.nextHandle :: s.opened,
                tracked := some s.nextHandle },
       [ConnectStep.testIdFilter, ConnectStep.testCapabilities, ConnectStep.allocHandle,
        ConnectStep.registerHandle, ConnectStep.openDevice, ConnectStep.logConnected]) := by
  simp [joystick_connect, hid, hcap, halloc, hreg, hopen]

/-- C3: a candidate lacking ABS_X-and-ABS_Y capability is rejected with
-ENODEV for every joystick_id and every host environment, with the state
unchanged and no handle allocation. -/
theorem C3_reject_without_axes (jid : Int) (dev : InputDev) (env : HostEnv) (s : HostState)
    (h : (test_bit ABS_X dev.absbit && test_bit ABS_Y dev.absbit) = false) :
    (joystick_connect jid dev env s).1 = -ENODEV ∧
    (joystick_connect jid dev env s).2.1 = s ∧
    ConnectStep.allocHandle ∉ (joystick_connect jid dev env s).2.2 := by
  unfold joystick_connect
  by_cases h1 : jid ≠ -1 ∧ dev.id.product ≠ jid
  · rw [if_pos h1]
    exact ⟨rfl, rfl, by simp⟩
  · rw [if_neg h1]
    have h2 : (!(test_bit ABS_X dev.absbit && test_bit ABS_Y dev.absbit)) = true := by
      rw [h]; rfl
    rw [if_pos h2]
    exact ⟨rfl, rfl, by simp⟩

/-- C3 witness: a device without axes is rejected even with joystick_id
unset (-1) and an all-success host environment. -/
theorem C3_reject_without_axes_witness :
    (joystick_connect (-1) devNoAxes envOk s0).1 = -ENODEV ∧
    (joystick_connect (-1) devNoAxes envOk s0).2.1 = s0 ∧
    ConnectStep.allocHandle ∉ (joystick_connect (-1) devNoAxes envOk s0).2.2 :=
  C3_reject_without_axes (-1) devNoAxes envOk s0 rfl

/-- C4: when joystick_id is set (not -1) and the candidate's product id
differs, the connect function returns -ENODEV with the state unchanged and
a trace containing only the id-filter test: the capability test is never
reached, so the identity check is evaluated before the capability check. -/
theorem C4_id_filter_first (jid : Int) (dev : InputDev) (env : HostEnv) (s : HostState)
    (h1 : jid ≠ -1) (h2 : dev.id.product ≠ jid) :
    (joystick_connect jid dev env s).1 = -ENODEV ∧
    (joystick_connect jid dev env s).2.1 = s ∧
    (joystick_connect jid dev env s).2.2 = [ConnectStep.testIdFilter] ∧
    ConnectStep.testCapabilities ∉ (joystick_connect jid dev env s).2.2 := by
  unfold joystick_connect
  rw [if_pos ⟨h1, h2⟩]
  exact ⟨rfl, rfl, rfl, by simp⟩

/-- C4 witness: with joystick_id 7 a fully capable joystick with product id
3 is rejected before its capabilities are even examined. -/
theorem C4_id_filter_first_witness :
    (joystick_connect 7 (mkJoystick 3) envOk s0).1 = -ENODEV ∧
    (joystick_connect 7 (mkJoystick 3) envOk s0).2.1 = s0 ∧
    (joystick_connect 7 (mkJoystick 3) envOk s0).2.2 = [ConnectStep.testIdFilter] ∧
    ConnectStep.testCapabilities ∉ (joystick_connect 7 (mkJoystick 3) envOk s0).2.2 :=
  C4_id_filter_first 7 (mkJoystick 3) envOk s0 (by decide) (by decide)

/-- C6: in the bind sequence after acceptance, a registration failure frees
the record and returns the error with no unregister call; an open failure
unregisters first, then frees, then returns the error. On both failure
paths the set of registered handles and the tracked binding reference
(joystick_handle) are left unchanged. -/
theorem C6_connect_failure_unwind (jid : Int) (dev : InputDev) (env : HostEnv)
    (s : HostState)
    (hid : ¬(jid ≠ -1 ∧ dev.id.product ≠ jid))
    (hcap : (test_bit ABS_X dev.absbit && test_bit ABS_Y dev.absbit) = true)
    (halloc : env.allocOk = true) :
    (env.registerHandleError ≠ 0 →
      joystick_connect jid dev env s =
        (env.registerHandleError,
         { s with nextHandle := s.nextHandle + 1, freed := s.nextHandle :: s.freed },
         [ConnectStep.testIdFilter, ConnectStep.testCapabilities, ConnectStep.allocHandle,
          ConnectStep.registerHandle, ConnectStep.freeHandle]) ∧
      (joystick_connect jid dev env s).2.1.registered = s.registered ∧
      (joystick_connect jid dev env s).2.1.tracked = s.tracked ∧
      ConnectStep.unregisterHandle ∉ (joystick_connect jid dev env s).2.2) ∧
    (env.registerHandleError = 0 → env.openDeviceError ≠ 0 →
      joystick_connect jid dev env s =
        (env.openDeviceError,
         { s with nextHandle := s.nextHandle + 1, freed := s.nextHandle :: s.freed },
         [ConnectStep.testIdFilter, ConnectStep.testCapabilities, ConnectStep.allocHandle,
          ConnectStep.registerHandle, ConnectStep.openDevice,
          ConnectStep.unregisterHandle, ConnectStep.freeHandle]) ∧
      (joystick_connect jid dev env s).2.1.registered = s.registered ∧
      (joystick_connect jid dev env s).2.1.tracked = s.tracked) := by
  constructor
  · intro hreg
    have heq : joystick_connect jid dev env s =
        (env.registerHandleError,
         { s with nextHandle := s.nextHandle + 1, freed := s.nextHandle :: s.freed },
         [ConnectStep.testIdFilter, ConnectStep.testCapabilities, ConnectStep.allocHandle,
          ConnectStep.registerHandle, ConnectStep.freeHandle]) := by
      simp [joystick_connect, hid, hcap, halloc, hreg]
    refine ⟨heq, ?_, ?_, ?_⟩ <;> simp [heq]
  · intro hreg hopen
    have heq : joystick_connect jid dev env s =
        (env.openDeviceError,
         { s with nextHandle := s.nextHandle + 1, freed := s.nextHandle :: s.freed },
         [ConnectStep.testIdFilter, ConnectStep.testCapabilities, ConnectStep.allocHandle,
          ConnectStep.registerHandle, ConnectStep.openDevice,
          ConnectStep.unregisterHandle, ConnectStep.freeHandle]) := by
      simp [joystick_connect, hid, hcap, halloc, hreg, hopen, List.erase_cons_head]
    exact ⟨heq, by rw [heq], by rw [heq]⟩

/-- A host environment in which input_register_handle fails with -5. -/
def envRegFail : HostEnv :=
  { allocOk := true, registerHandleError := -5, openDeviceError := 0 }

/-- A host environment in which input_open_device fails with -6. -/
def envOpenFail : HostEnv :=
  { allocOk := true, registerHandleError := 0, openDeviceError := -6 }

/-- C6 witness: concrete register-failure and open-failure runs from the
initial state, each leaving no registered handle and the tracked reference
unchanged. -/
theorem C6_connect_failure_unwind_witness :
    (joystick_connect (-1) (mkJoystick 3) envRegFail s0 =
      (envRegFail.registerHandleError,
       { s0 with nextHandle := s0.nextHandle + 1, freed := s0.nextHandle :: s0.freed },
       [ConnectStep.testIdFilter, ConnectStep.testCapabilities, ConnectStep.allocHandle,
        ConnectStep.registerHandle, ConnectStep.freeHandle]) ∧
     (joystick_connect (-1) (mkJoystick 3) envRegFail s0).2.1.registered = s0.registered ∧
     (joystick_connect (-1) (mkJoystick 3) envRegFail s0).2.1.tracked = s0.tracked ∧
     ConnectStep.unregisterHandle ∉ (joystick_connect (-1) (mkJoystick 3) envRegFail s0).2.2) ∧
    (joystick_connect (-1) (mkJoystick 3) envOpenFail s0 =
      (envOpenFail.openDeviceError,
       { s0 with nextHandle := s0.nextHandle + 1, freed := s0.nextHandle :: s0.freed },
       [ConnectStep.testIdFilter, ConnectStep.testCapabilities, ConnectStep.allocHandle,
        ConnectStep.registerHandle, ConnectStep.openDevice,
        ConnectStep.unregisterHandle, ConnectStep.freeHandle]) ∧
     (joystick_connect (-1) (mkJoystick 3) envOpenFail s0).2.1.registered = s0.registered ∧
     (joystick_connect (-1) (mkJoystick 3) envOpenFail s0).2.1.tracked = s0.tracked) :=
  ⟨(C6_connect_failure_unwind (-1) (mkJoystick 3) envRegFail s0
      (by simp) rfl rfl).1 (by decide),
   (C6_connect_failure_unwind (-1) (mkJoystick 3) envOpenFail s0
      (by simp) rfl rfl).2 rfl (by decide)⟩

/-- C7 counterexample: the connect callback never consults the tracked
binding, so while the binding for the first device (handle 0) is live
(registered and opened), a second capable device is accepted and a second
live binding (handle 1) is created; both are live afterwards and the
tracked reference silently moves to the new one. This refutes the claim
that a second acceptance attempt cannot create an additional live
binding. -/
theorem C7_counterexample :
    (joystick_connect (-1) (mkJoystick 3) envOk s0).1 = 0 ∧
    (joystick_connect (-1) (mkJoystick 3) envOk s0).2.1.tracked = some 0 ∧
    0 ∈ (joystick_connect (-1) (mkJoystick 3) envOk s0).2.1.registered ∧
    0 ∈ (joystick_connect (-1) (mkJoystick 3) envOk s0).2.1.opened ∧
    (joystick_connect (-1) (mkJoystick 4) envOk
      (joystick_connect (-1) (mkJoystick 3) envOk s0).2.1).1 = 0 ∧
    0 ∈ (joystick_connect (-1) (mkJoystick 4) envOk
      (joystick_connect (-1) (mkJoystick 3) envOk s0).2.1).2.1.registered ∧
    0 ∈ (joystick_connect (-1) (mkJoystick 4) envOk
      (joystick_connect (-1) (mkJoystick 3) envOk s0).2.1).2.1.opened ∧
    1 ∈ (joystick_connect (-1) (mkJoystick 4) envOk
      (joystick_connect (-1) (mkJoystick 3) envOk s0).2.1).2.1.registered ∧
    1 ∈ (joystick_connect (-1) (mkJoystick 4) envOk
      (joystick_connect (-1) (mkJoystick 3) envOk s0).2.1).2.1.opened ∧
    (joystick_connect (-1) (mkJoystick 4) envOk
      (joystick_connect (-1) (mkJoystick 3) envOk s0).2.1).2.1.tracked = some 1 := by
  decide

/-- C7 amended: the matcher tracks only one binding reference, but a second
acceptance attempt while a binding is live is not prevented: from any state
holding a live binding h0, accepting another capable device succeeds,
registers and opens a fresh handle, and overwrites the tracked reference,
leaving two distinct live bindings. -/
theorem C7_amended_second_live_binding (jid : Int) (dev : InputDev) (env : HostEnv)
    (s : HostState) (h0 : Nat)
    (hid : ¬(jid ≠ -1 ∧ dev.id.product ≠ jid))
    (hcap : (test_bit ABS_X dev.absbit && test_bit ABS_Y dev.absbit) = true)
    (halloc : env.allocOk = true)
    (hreg : env.registerHandleError = 0)
    (hopen : env.openDeviceError = 0)
    (hlive : h0 ∈ s.registered ∧ h0 ∈ s.opened)
    (hfresh : h0 < s.nextHandle) :
    (joystick_connect jid dev env s).1 = 0 ∧
    (joystick_connect jid dev env s).2.1.tracked = some s.nextHandle ∧
    s.nextHandle ∈ (joystick_connect jid dev env s).2.1.registered ∧
    s.nextHandle ∈ (joystick_connect jid dev env s).2.1.opened ∧
    h0 ∈ (joystick_connect jid dev env s).2.1.registered ∧
    h0 ∈ (joystick_connect jid dev env s).2.1.opened ∧
    h0 ≠ s.nextHandle := by
  rw [connect_success_eq jid dev env s hid hcap halloc hreg hopen]
  refine ⟨rfl, rfl, List.mem_cons_self _ _, List.mem_cons_self _ _,
    List.mem_cons_of_mem _ hlive.1, List.mem_cons_of_mem _ hlive.2,
    Nat.ne_of_lt hfresh⟩

/-- The state after the first successful acceptance: handle 0 registered,
opened and tracked. -/
def sOneBound : HostState :=
  { nextHandle := 1, registered := [0], opened := [0], freed := [], tracked := some 0 }

/-- C7 amended witness: from the concrete one-binding state, accepting a
second capable device yields two live bindings, 0 and 1. -/
theorem C7_amended_second_live_binding_witness :
    (joystick_connect (-1) (mkJoystick 4) envOk sOneBound).1 = 0 ∧
    (joystick_connect (-1) (mkJoystick 4) envOk sOneBound).2.1.tracked =
      some sOneBound.nextHandle ∧
    sOneBound.nextHandle ∈ (joystick_connect (-1) (mkJoystick 4) envOk sOneBound).2.1.registered ∧
    sOneBound.nextHandle ∈ (joystick_connect (-1) (mkJoystick 4) envOk sOneBound).2.1.opened ∧
    0 ∈ (joystick_connect (-1) (mkJoystick 4) envOk sOneBound).2.1.registered ∧
    0 ∈ (joystick_connect (-1) (mkJoystick 4) envOk sOneBound).2.1.opened ∧
    0 ≠ sOneBound.nextHandle :=
  C7_amended_second_live_binding (-1) (mkJoystick 4) envOk sOneBound 0
    (by simp) rfl rfl rfl rfl ⟨by decide, by decide⟩ (by decide)

/-- C8 counterexample: after a successful bind (tracked = handle 0), the
disconnect callback closes, unregisters and frees handle 0 but does not
clear the tracked reference: joystick_handle still holds the stale handle 0
afterwards, refuting the claim that disconnect clears the tracked
reference. -/
theorem C8_counterexample :
    (joystick_connect (-1) (mkJoystick 3) envOk s0).1 = 0 ∧
    (joystick_connect (-1) (mkJoystick 3) envOk s0).2.1.tracked = some 0 ∧
    0 ∉ (joystick_disconnect 0 (joystick_connect (-1) (mkJoystick 3) envOk s0).2.1).1.registered ∧
    0 ∉ (joystick_disconnect 0 (joystick_connect (-1) (mkJoystick 3) envOk s0).2.1).1.opened ∧
    0 ∈ (joystick_disconnect 0 (joystick_connect (-1) (mkJoystick 3) envOk s0).2.1).1.freed ∧
    (joystick_disconnect 0 (joystick_connect (-1) (mkJoystick 3) envOk s0).2.1).1.tracked
      = some 0 ∧
    (joystick_disconnect 0 (joystick_connect (-1) (mkJoystick 3) envOk s0).2.1).1.tracked
      ≠ none := by
  decide

/-- C8 amended: on a disconnect notification the system emits the
diagnostic first, then closes the binding, unregisters it and releases its
record; it does NOT clear the tracked reference (joystick_handle keeps the
stale value); a new compatible candidate device can nevertheless be
accepted afterwards, since acceptance never consults the tracked
reference. -/
theorem C8_amended_disconnect (handle : Nat) (s : HostState) :
    (joystick_disconnect handle s).2 =
      [DisconnectStep.logDisconnected, DisconnectStep.closeDevice,
       DisconnectStep.unregisterHandle, DisconnectStep.freeHandle] ∧
    (joystick_disconnect handle s).1.registered = s.registered.erase handle ∧
    (joystick_disconnect handle s).1.opened = s.opened.erase handle ∧
    handle ∈ (joystick_disconnect handle s).1.freed ∧
    (joystick_disconnect handle s).1.tracked = s.tracked ∧
    (∀ (jid : Int) (dev : InputDev) (env : HostEnv),
      ¬(jid ≠ -1 ∧ dev.id.product ≠ jid) →
      (test_bit ABS_X dev.absbit && test_bit ABS_Y dev.absbit) = true →
      env.allocOk = true → env.registerHandleError = 0 → env.openDeviceError = 0 →
      (joystick_connect jid dev env (joystick_disconnect handle s).1).1 = 0) := by
  refine ⟨rfl, rfl, rfl, List.mem_cons_self _ _, rfl,
    fun jid dev env hid hcap halloc hreg hopen => ?_⟩
  rw [connect_success_eq jid dev env _ hid hcap halloc hreg hopen]

/-- C8 amended witness: disconnecting handle 0 from the one-binding state
performs log, close, unregister, free in that order, leaves the stale
tracked reference in place, and a new capable device is then accepted. -/
theorem C8_amended_disconnect_witness :
    (joystick_disconnect 0 sOneBound).2 =
      [DisconnectStep.logDisconnected, DisconnectStep.closeDevice,
       DisconnectStep.unregisterHandle, DisconnectStep.freeHandle] ∧
    (joystick_disconnect 0 sOneBound).1.registered = sOneBound.registered.erase 0 ∧
    (joystick_disconnect 0 sOneBound).1.opened = sOneBound.opened.erase 0 ∧
    0 ∈ (joystick_disconnect 0 sOneBound).1.freed ∧
    (joystick_disconnect 0 sOneBound).1.tracked = sOneBound.tracked ∧
    (joystick_connect (-1) (mkJoystick 9) envOk (joystick_disconnect 0 sOneBound).1).1 = 0 :=
  ⟨(C8_amended_disconnect 0 sOneBound).1,
   (C8_amended_disconnect 0 sOneBound).2.1,
   (C8_amended_disconnect 0 sOneBound).2.2.1,
   (C8_amended_disconnect 0 sOneBound).2.2.2.1,
   (C8_amended_disconnect 0 sOneBound).2.2.2.2.1,
   (C8_amended_disconnect 0 sOneBound).2.2.2.2.2 (-1) (mkJoystick 9) envOk
     (by simp) rfl rfl rfl rfl⟩

/-! Embedding of the Virtual Output Factory (create_virtual_devices,
src/joystick_drawer.c lines 148-222). The function is modelled as a trace
of the host-visible operations it successfully performs (plus its printk
diagnostics), under injected outcomes for the fallible host calls
input_allocate_device and input_register_device; the resulting device
state is obtained by replaying the trace. -/

/-- Outcomes of the four fallible host calls made during startup (0 means
the register call succeeds; a nonzero value is the returned error code). -/
structure InitEnv where
  mouseAllocOk : Bool
  mouseRegisterError : Int
  keyboardAllocOk : Bool
  keyboardRegisterError : Int

/-- Host-visible operations performed by create_virtual_devices, in source
order: successful allocations and registrations, the error printks, and the
cleanup calls of the error-unwind labels (err_free_keyboard,
err_unregister_mouse, err_free_mouse). -/
inductive InitStep where
  | allocMouse
  | registerMouse
  | allocKeyboard
  | registerKeyboard
  | freeMouse
  | freeKeyboard
  | unregisterMouse
  | logNoMemMouse
  | logRegFailMouse
  | logNoMemKeyboard
  | logRegFailKeyboard
  deriving DecidableEq, Repr

/-- Registration / allocation status of the two virtual output devices. -/
structure DevState where
  mouseAllocated : Bool
  mouseRegistered : Bool
  keyboardAllocated : Bool
  keyboardRegistered : Bool
  deriving DecidableEq, Repr

/-- The state before startup: neither device exists. -/
def devState0 : DevState :=
  { mouseAllocated := false, mouseRegistered := false,
    keyboardAllocated := false, keyboardRegistered := false }

/-- Effect of one startup operation on the device state.
input_unregister_device also releases the device, so unregisterMouse clears
both the registered and the allocated status. -/
def applyInitStep (st : DevState) : InitStep → DevState
  | InitStep.allocMouse => { st with mouseAllocated := true }
  | InitStep.registerMouse => { st with mouseRegistered := true }
  | InitStep.allocKeyboard => { st with keyboardAllocated := true }
  | InitStep.registerKeyboard => { st with keyboardRegistered := true }
  | InitStep.freeMouse => { st with mouseAllocated := false }
  | InitStep.freeKeyboard => { st with keyboardAllocated := false }
  | InitStep.unregisterMouse => { st with mouseRegistered := false, mouseAllocated := false }
  | InitStep.logNoMemMouse => st
  | InitStep.logRegFailMouse => st
  | InitStep.logNoMemKeyboard => st
  | InitStep.logRegFailKeyboard => st

/-- Replay a startup trace from the empty state. -/
def runInitSteps (steps : List InitStep) : DevState :=
  steps.foldl applyInitStep devState0

/-- Embedding of create_virtual_devices (src/joystick_drawer.c lines
148-222): returns the int result and the trace of host-visible operations
performed, following the source's control flow and its error-unwind
labels. -/
def create_virtual_devices (env : InitEnv) : Int × List InitStep :=
  if !env.mouseAllocOk then
    (-ENOMEM, [InitStep.logNoMemMouse])
  else if env.mouseRegisterError ≠ 0 then
    (env.mouseRegisterError,
     [InitStep.allocMouse, InitStep.logRegFailMouse, InitStep.freeMouse])
  else if !env.keyboardAllocOk then
    (-ENOMEM,
     [InitStep.allocMouse, InitStep.registerMouse, InitStep.logNoMemKeyboard,
      InitStep.unregisterMouse])
  else if env.keyboardRegisterError ≠ 0 then
    (env.keyboardRegisterError,
     [InitStep.allocMouse, InitStep.registerMouse, InitStep.allocKeyboard,
      InitStep.logRegFailKeyboard, InitStep.freeKeyboard, InitStep.unregisterMouse])
  else
    (0,
     [InitStep.allocMouse, InitStep.registerMouse, InitStep.allocKeyboard,
      InitStep.registerKeyboard])

/-- C5: startup creation of the two output devices is atomic as a pair: for
every outcome of the four fallible host calls, create_virtual_devices
either returns 0 with both devices registered, or returns a nonzero error
code with neither device registered (and nothing left allocated). -/
theorem C5_create_devices_atomic (env : InitEnv) :
    ((create_virtual_devices env).1 = 0 ∧
      (runInitSteps (create_virtual_devices env).2).mouseRegistered = true ∧
      (runInitSteps (create_virtual_devices env).2).keyboardRegistered = true) ∨
    ((create_virtual_devices env).1 ≠ 0 ∧
      runInitSteps (create_virtual_devices env).2 = devState0) := by
  by_cases hma : env.mouseAllocOk = true
  · by_cases hmr : env.mouseRegisterError = 0
    · by_cases hka : env.keyboardAllocOk = true
      · by_cases hkr : env.keyboardRegisterError = 0
        · left
          simp [create_virtual_devices, hma, hmr, hka, hkr, runInitSteps,
            applyInitStep, devState0]
        · right
          refine ⟨?_, ?_⟩ <;>
            simp [create_virtual_devices, hma, hmr, hka, hkr, runInitSteps,
              applyInitStep, devState0]
      · right
        refine ⟨?_, ?_⟩ <;>
          simp [create_virtual_devices, ENOMEM, hma, hmr, hka, runInitSteps,
            applyInitStep, devState0]
    · right
      refine ⟨?_, ?_⟩ <;>
        simp [create_virtual_devices, hma, hmr, runInitSteps, applyInitStep, devState0]
  · right
    refine ⟨?_, ?_⟩ <;>
      simp [create_virtual_devices, ENOMEM, hma, runInitSteps, applyInitStep, devState0]

end JoystickDrawer
